import Mathlib

/-!
Shallow embedding of the Gemini service layer of the AI-Comci repository
(src/unnamed/part_000).  The file models, working on `String` / `List Char`:

* the image codec used at every attachment site: the mime sniffing
  expression `x.match(/data:(image\/.*?);/)?.[1] || 'image/png'` and the
  payload extraction `base64.split(',')[1]` of `base64ToGeminiPart`, plus
  the inverse construction `data:<mime>;base64,<data>` used at every
  success site;
* the request-part assembly of `generateLayoutProposal`,
  `generateMangaPage` and the previous-page context loop of
  `generateDetailedStorySuggestion`;
* the aspect-ratio profile table and its fallback lookup;
* the response extraction of every image-producing operation and the
  JSON handling of the two structured-text operations (with a JSON model
  covering the integer / string / bool / null / array / object fragment
  that the payloads under study use).

JavaScript truthiness of strings (empty string is falsy) and of optional
values (undefined is falsy) is made explicit wherever the source branches
on it.
-/

/-- Characters matched by `.` in a JavaScript regex without the `s` flag:
everything except line terminators. -/
def isDot (c : Char) : Bool :=
  !(c.val = 10 || c.val = 13 || c.val = 8232 || c.val = 8233)

/-- The lazy fragment `.*?;` of the mime regex, run after the literal
`data:image/` has been consumed: succeeds with the shortest run of
dot-characters that is followed by a semicolon, i.e. stops at the first
semicolon; fails when a line terminator or the end of the string is
reached first. -/
def lazyToSemi : List Char → Option (List Char)
  | [] => none
  | c :: rest =>
    if c = ';' then some []
    else if isDot c then (lazyToSemi rest).map (fun cs => c :: cs)
    else none

/-- Strip a literal pattern from the front of a character list, returning
the remainder on success. -/
def dropStart : List Char → List Char → Option (List Char)
  | [], s => some s
  | _ :: _, [] => none
  | p :: ps, c :: cs => if p = c then dropStart ps cs else none

/-- The literal part of the mime regex `/data:(image\/.*?);/`. -/
def dataImagePat : List Char := "data:image/".data

/-- The leading literal of every capture the mime regex can produce. -/
def imageTypePat : List Char := "image/".data

/-- Attempt the regex `/data:(image\/.*?);/` at exactly the head of the
list; on success return the contents of capture group 1. -/
def matchFrom (s : List Char) : Option (List Char) :=
  match dropStart dataImagePat s with
  | some rest => (lazyToSemi rest).map (fun cap => imageTypePat ++ cap)
  | none => none

/-- Leftmost match of `/data:(image\/.*?);/`: JavaScript `String.match`
tries every start position from the left and returns the first success. -/
def findMime : List Char → Option (List Char)
  | [] => none
  | c :: rest =>
    match matchFrom (c :: rest) with
    | some cap => some cap
    | none => findMime rest

/-- The mime sniffing expression appearing at every attachment site of the
source: `x.match(/data:(image\/.*?);/)?.[1] || 'image/png'`.  (The capture,
when present, starts with the nonempty literal `image/`, so the `||`
default only fires when the match fails.) -/
def mimeOf (s : String) : String :=
  match findMime s.data with
  | some cap => String.mk cap
  | none => "image/png"

/-- The construction `data:<mimeType>;base64,<data>` used at every success
site of the image-producing operations, and the wire format of every
EncodedImage input. -/
def encodeImage (mimeType data : String) : String :=
  "data:" ++ mimeType ++ ";base64," ++ data

/-- JavaScript `s.split(sep)` for a one-character separator: the list of
chunks between occurrences of the separator. -/
def splitOnChar (c : Char) : List Char → List (List Char)
  | [] => [[]]
  | a :: rest =>
    if a = c then [] :: splitOnChar c rest
    else
      match splitOnChar c rest with
      | [] => [[a]]
      | chunk :: more => (a :: chunk) :: more

/-- The payload extraction `base64.split(',')[1]` of `base64ToGeminiPart`:
`none` models the JavaScript `undefined` produced when the string has no
comma. -/
def splitComma1 (s : String) : Option String :=
  ((splitOnChar ',' s.data).get? 1).map String.mk

/-- Whether a capture starts with the literal `image/`. -/
def startsWithImage (t : List Char) : Bool :=
  (dropStart imageTypePat t).isSome

/-- `segAt pat s`: `pat` is a leading segment of `s`. -/
def segAt : List Char → List Char → Bool
  | [], _ => true
  | _ :: _, [] => false
  | a :: ps, b :: bs => a = b && segAt ps bs

/-- `occursIn pat s`: `pat` occurs as a contiguous segment of `s`
(the sense in which a failure message contains the model text verbatim). -/
def occursIn : List Char → List Char → Bool
  | pat, [] => pat.isEmpty
  | pat, b :: rest => segAt pat (b :: rest) || occursIn pat rest

/-- A character record as consumed by the service layer: name, optional
description, required sheet image, and zero or more reference images (all
images in the EncodedImage data-URI format). -/
structure Character where
  name : String
  description : Option String := none
  sheetImage : String
  referenceImages : List String := []
deriving DecidableEq, Repr

/-- The slice of a page record the service layer reads: the scene script
and the optional generated image. -/
structure Page where
  sceneDescription : String
  generatedImage : Option String := none
deriving DecidableEq, Repr

/-- The previous-page argument of `generateLayoutProposal`. -/
structure PrevLayout where
  proposalImage : String
  sceneDescription : String
deriving DecidableEq, Repr

/-- One part of an outgoing request: the union type
`{ text: string } | { inlineData: { data: string; mimeType: string } }`
annotated on the `parts` arrays of the source.  The `data` field is
`Option String` because `base64.split(',')[1]` is `undefined` when the
input has no comma. -/
inductive ReqPart where
  | text (t : String)
  | inlineData (data : Option String) (mimeType : String)
deriving DecidableEq, Repr

/-- `base64ToGeminiPart`: wraps `base64.split(',')[1]` with the given mime
type into an inline-data request part. -/
def base64ToGeminiPart (base64 : String) (mimeType : String) : ReqPart :=
  .inlineData (splitComma1 base64) mimeType

/-- The attachment built for one image string, sniffing the mime type the
way every call site does: `base64ToGeminiPart(img, img.match(...)||png)`. -/
def imageAttachment (img : String) : ReqPart :=
  base64ToGeminiPart img (mimeOf img)

/-- Request-part assembly of `generateLayoutProposal` (the `parts` array
built after the prompt text): start from `[{text: prompt}]`, push the
current canvas image if truthy, then the previous-page proposal image if
truthy, then the per-character sheet parts (built from the roster when it
is nonempty). -/
def generateLayoutProposalParts (prompt : String) (characters : List Character)
    (previousPage : Option PrevLayout) (currentCanvasImage : Option String) :
    List ReqPart :=
  let characterParts :=
    if characters.length > 0 then
      characters.map (fun char => imageAttachment char.sheetImage)
    else []
  let base : List ReqPart := [.text prompt]
  let withCanvas :=
    match currentCanvasImage with
    | some img => if img = "" then base else base ++ [imageAttachment img]
    | none => base
  let withPrev :=
    match previousPage with
    | some pp =>
      if pp.proposalImage = "" then withCanvas
      else withCanvas ++ [imageAttachment pp.proposalImage]
    | none => withCanvas
  withPrev ++ characterParts

/-- The truthiness test `previousPage && previousPage.generatedImage` of
`generateMangaPage`, returning the image when it passes. -/
def prevGeneratedImage : Option Page → Option String
  | none => none
  | some pg =>
    match pg.generatedImage with
    | none => none
    | some img => if img = "" then none else some img

/-- Request-part assembly of `generateMangaPage`: `[{text: prompt}]`, then
the previous-page image when `previousPage && previousPage.generatedImage`
is truthy, then the character sheet parts in roster order, then the panel
layout part. -/
def generateMangaPageParts (prompt : String) (characters : List Character)
    (panelLayoutImageBase64 : String) (previousPage : Option Page) :
    List ReqPart :=
  let panelLayoutPart := imageAttachment panelLayoutImageBase64
  let characterParts := characters.map (fun char => imageAttachment char.sheetImage)
  let base : List ReqPart := [.text prompt]
  let withPrev :=
    match prevGeneratedImage previousPage with
    | some img => base ++ [imageAttachment img]
    | none => base
  withPrev ++ characterParts ++ [panelLayoutPart]

/-- The text appended for one kept previous page in
`generateDetailedStorySuggestion`, where `index` is the page's position in
the original `previousPages` array. -/
def prevPageTxt (index : Nat) (script : String) : String :=
  "\n\n**[Previous Page " ++ toString (index + 1) ++ "]**\n*Script:* "
    ++ script ++ "\n*Image:* [Image " ++ toString (index + 1) ++ " is attached]"

/-- The filter `if (page.generatedImage && page.sceneDescription)` of the
previous-pages loop: yields the (image, script) pair when both are truthy. -/
def pageCtxKeep (p : Page) : Option (String × String) :=
  match p.generatedImage with
  | none => none
  | some img =>
    if img = "" then none
    else if p.sceneDescription = "" then none
    else some (img, p.sceneDescription)

/-- The `previousPages.forEach((page, index) => ...)` loop of
`generateDetailedStorySuggestion`: accumulates the appended context text
and the pushed attachment parts, indexing each kept page by its position
in the original array. -/
def prevPagesBuild : Nat → List Page → String × List ReqPart
  | _, [] => ("", [])
  | index, p :: ps =>
    let rest := prevPagesBuild (index + 1) ps
    match pageCtxKeep p with
    | some (img, script) =>
      (prevPageTxt index script ++ rest.1, imageAttachment img :: rest.2)
    | none => rest

/-- A (width, height, ratio string) aspect-ratio profile. -/
structure RatioProfile where
  w : Nat
  h : Nat
  value : String
deriving DecidableEq, Repr

/-- The property names a bracket lookup on a plain object literal finds on
the prototype chain: the members of `Object.prototype` (the standard
methods, the `constructor` slot and the Annex B accessors), every one of
them a function or object and hence truthy. -/
def objectProtoNames : List String :=
  ["constructor", "hasOwnProperty", "isPrototypeOf", "propertyIsEnumerable",
   "toLocaleString", "toString", "valueOf", "__proto__", "__defineGetter__",
   "__defineSetter__", "__lookupGetter__", "__lookupSetter__"]

/-- Result of the bracket lookup `ASPECT_RATIO_CONFIG[key]` on the plain
object literal: one of its own entries, a truthy member inherited from
`Object.prototype`, or `undefined`. -/
inductive RatioLookup where
  | entry (p : RatioProfile)
  | protoMember
  | missing
deriving DecidableEq, Repr

/-- The `ASPECT_RATIO_CONFIG` table read through a JavaScript bracket
lookup: the four preset keys yield their fixed profiles; a key naming an
`Object.prototype` member yields that inherited (truthy) member; any other
key yields `undefined`. -/
def aspectRatioConfig (key : String) : RatioLookup :=
  if key = "A4" then .entry { w := 595, h := 842, value := "210:297" }
  else if key = "Portrait (3:4)" then .entry { w := 600, h := 800, value := "3:4" }
  else if key = "Square (1:1)" then .entry { w := 800, h := 800, value := "1:1" }
  else if key = "Widescreen (16:9)" then .entry { w := 1280, h := 720, value := "16:9" }
  else if key ∈ objectProtoNames then .protoMember
  else .missing

/-- JavaScript truthiness of the lookup result: own entries and inherited
prototype members (functions / objects) are truthy; `undefined` is falsy. -/
def ratioTruthy : RatioLookup → Bool
  | .entry _ => true
  | .protoMember => true
  | .missing => false

/-- The config selection of `generateLayoutProposal`:
`ASPECT_RATIO_CONFIG[aspectRatioKey] || ASPECT_RATIO_CONFIG['A4']`
(the fallback branch is the table's own `A4` entry, taken only when the
lookup is falsy). -/
def layoutAspectConfig (aspectRatioKey : String) : RatioLookup :=
  if ratioTruthy (aspectRatioConfig aspectRatioKey) then
    aspectRatioConfig aspectRatioKey
  else aspectRatioConfig "A4"

/-- The (width, height, ratio string) fields the prompt reads off the
selected config (`config.value`, `config.w`, `config.h`): present for a
table entry, `undefined` (`none`) when the selection is an inherited
`Object.prototype` member, whose fields do not exist. -/
def layoutAspectProfile (aspectRatioKey : String) : Option RatioProfile :=
  match layoutAspectConfig aspectRatioKey with
  | .entry p => some p
  | .protoMember => none
  | .missing => none

/-- The inline binary payload of a response part. -/
structure InlineData where
  data : String
  mimeType : String
deriving DecidableEq, Repr

/-- One part of a response candidate: optional inline binary data and
optional text. -/
structure RPart where
  inlineData : Option InlineData := none
  text : Option String := none
deriving DecidableEq, Repr

/-- The `content` of a response candidate. -/
structure RContent where
  parts : List RPart
deriving DecidableEq, Repr

/-- One response candidate. -/
structure RCandidate where
  content : RContent
deriving DecidableEq, Repr

/-- A backend response: the candidate list (empty also models an absent
list, which the source treats identically via `!response.candidates?.length`)
and the aggregated `response.text` accessor used by some failure messages. -/
structure GenResponse where
  candidates : List RCandidate
  text : Option String := none
deriving DecidableEq, Repr

/-- `parts.find(part => part.inlineData)?.inlineData`: the inline payload of
the first part whose `inlineData` is truthy (any present object is truthy). -/
def firstInl : List RPart → Option InlineData
  | [] => none
  | p :: ps =>
    match p.inlineData with
    | some d => some d
    | none => firstInl ps

/-- `parts.find(part => part.text)?.text`: the text of the first part whose
`text` is truthy (present and nonempty). -/
def firstTxt : List RPart → Option String
  | [] => none
  | p :: ps =>
    match p.text with
    | some t => if t = "" then firstTxt ps else some t
    | none => firstTxt ps

/-- Response handling of `generateLayoutProposal` (after the backend call):
empty candidates fail; otherwise the first inline part yields the data URI,
else the first text part is embedded in the missing-image message, else a
fixed missing-image message. -/
def layoutExtract (response : GenResponse) : Except String String :=
  match response.candidates with
  | [] => .error "The AI did not return a valid response for the layout proposal."
  | c :: _ =>
    match firstInl c.content.parts with
    | some d => .ok (encodeImage d.mimeType d.data)
    | none =>
      match firstTxt c.content.parts with
      | some t => .error ("The AI did not return an image. Response: \"" ++ t ++ "\"")
      | none => .error "The AI did not return an image for the layout proposal."

/-- Response handling of `generateCharacterSheet`. -/
def charSheetExtract (response : GenResponse) : Except String String :=
  match response.candidates with
  | [] => .error "The AI did not return a valid response for the character sheet. It may have been blocked."
  | c :: _ =>
    match firstInl c.content.parts with
    | some d => .ok (encodeImage d.mimeType d.data)
    | none =>
      match firstTxt c.content.parts with
      | some t => .error ("The AI did not return an image. Response: \"" ++ t ++ "\"")
      | none => .error "The AI did not return an image for the character sheet."

/-- Response handling of `generateCharacterFromReference` (textually the
same checks and messages as `generateCharacterSheet`). -/
def charFromRefExtract (response : GenResponse) : Except String String :=
  match response.candidates with
  | [] => .error "The AI did not return a valid response for the character sheet. It may have been blocked."
  | c :: _ =>
    match firstInl c.content.parts with
    | some d => .ok (encodeImage d.mimeType d.data)
    | none =>
      match firstTxt c.content.parts with
      | some t => .error ("The AI did not return an image. Response: \"" ++ t ++ "\"")
      | none => .error "The AI did not return an image for the character sheet."

/-- Response handling of `editCharacterSheet`: on candidates without an
inline part it throws a fixed message, without consulting any text part. -/
def editCharSheetExtract (response : GenResponse) : Except String String :=
  match response.candidates with
  | [] => .error "The AI did not return a valid response for the character sheet edit."
  | c :: _ =>
    match firstInl c.content.parts with
    | some d => .ok (encodeImage d.mimeType d.data)
    | none => .error "The AI did not return an updated image for the character sheet."

/-- Response handling of `colorizeMangaPage`: on candidates without an
inline part it throws a fixed message, without consulting any text part. -/
def colorizeExtract (response : GenResponse) : Except String String :=
  match response.candidates with
  | [] => .error "The AI did not return a valid response for colorization."
  | c :: _ =>
    match firstInl c.content.parts with
    | some d => .ok (encodeImage d.mimeType d.data)
    | none => .error "The AI did not return a colored image."

/-- Response handling of `editMangaPage`. -/
def editMangaExtract (response : GenResponse) : Except String String :=
  match response.candidates with
  | [] => .error "The AI did not return a valid response for the image edit."
  | c :: _ =>
    match firstInl c.content.parts with
    | some d => .ok (encodeImage d.mimeType d.data)
    | none =>
      match firstTxt c.content.parts with
      | some t => .error ("The AI did not return an image. Response: \"" ++ t ++ "\"")
      | none => .error "The AI did not return an edited image."

/-- The result type of `generateMangaPage`. -/
structure GeneratedContent where
  image : Option String := none
  text : Option String := none
deriving DecidableEq, Repr

/-- The part loop of `generateMangaPage`: for each part, a truthy
`inlineData` overwrites `result.image`; otherwise a truthy `text`
overwrites `result.text`. -/
def mangaScan : List RPart → GeneratedContent → GeneratedContent
  | [], acc => acc
  | p :: ps, acc =>
    match p.inlineData with
    | some d => mangaScan ps { acc with image := some (encodeImage d.mimeType d.data) }
    | none =>
      match p.text with
      | some t => if t = "" then mangaScan ps acc else mangaScan ps { acc with text := some t }
      | none => mangaScan ps acc

/-- Response handling of `generateMangaPage`: empty candidates fail with
`response.text` appended; otherwise the part loop runs and a result without
an image fails with `result.text` appended. -/
def mangaPageExtract (response : GenResponse) : Except String GeneratedContent :=
  match response.candidates with
  | [] => .error ("The AI did not return a valid response. It may have been blocked. "
      ++ (response.text.getD ""))
  | c :: _ =>
    let result := mangaScan c.content.parts { image := none, text := none }
    match result.image with
    | some _ => .ok result
    | none => .error ("The AI did not return an image. It might have refused the request. "
        ++ (result.text.getD ""))

/-- The data URI of the last part with truthy `inlineData`, i.e. the image
the `generateMangaPage` loop ends up keeping. -/
def lastInlUri : List RPart → Option String
  | [] => none
  | p :: ps => (lastInlUri ps).or (p.inlineData.map (fun d => encodeImage d.mimeType d.data))

/-- The text contribution of one part in the `generateMangaPage` loop: only
parts without `inlineData` and with truthy text set `result.text`. -/
def partTxt (p : RPart) : Option String :=
  match p.inlineData with
  | some _ => none
  | none =>
    match p.text with
    | some t => if t = "" then none else some t
    | none => none

/-- The text the `generateMangaPage` loop ends up keeping: the last truthy
text among parts without inline data. -/
def lastTxt : List RPart → Option String
  | [] => none
  | p :: ps => (lastTxt ps).or (partTxt p)

/-- JSON values, covering the fragment produced by `JSON.parse` on the
payloads under study (numbers restricted to integers; the schemas in the
source declare only INTEGER, STRING, BOOLEAN, ARRAY and OBJECT). -/
inductive Json where
  | null
  | bool (b : Bool)
  | num (n : Int)
  | str (s : String)
  | arr (elems : List Json)
  | obj (fields : List (String × Json))

/-- JSON insignificant whitespace. -/
def jsonWs (c : Char) : Bool :=
  c = ' ' || c = '\t' || c = '\n' || c = '\r'

/-- Drop leading JSON whitespace. -/
def skipWs : List Char → List Char
  | [] => []
  | c :: rest => if jsonWs c then skipWs rest else c :: rest

/-- JSON string escape characters (the `\uXXXX` form is outside the
modelled fragment). -/
def escChar : Char → Option Char
  | '"' => some '"'
  | '\\' => some '\\'
  | '/' => some '/'
  | 'b' => some (Char.ofNat 8)
  | 'f' => some (Char.ofNat 12)
  | 'n' => some '\n'
  | 'r' => some '\r'
  | 't' => some '\t'
  | _ => none

/-- Parse the body of a JSON string literal (the opening quote already
consumed), returning the decoded characters and the remainder. -/
def parseStrBody : Nat → List Char → Option (List Char × List Char)
  | 0, _ => none
  | _, [] => none
  | fuel + 1, c :: rest =>
    if c = '"' then some ([], rest)
    else if c = '\\' then
      match rest with
      | [] => none
      | e :: r2 =>
        match escChar e with
        | none => none
        | some ch => (parseStrBody fuel r2).map (fun pr => (ch :: pr.1, pr.2))
    else (parseStrBody fuel rest).map (fun pr => (c :: pr.1, pr.2))

/-- Split off the leading run of decimal digits. -/
def takeDigits : List Char → List Char × List Char
  | [] => ([], [])
  | c :: rest =>
    if c.isDigit then
      let pr := takeDigits rest
      (c :: pr.1, pr.2)
    else ([], c :: rest)

/-- Decimal digits to a natural number. -/
def digitsToNat (ds : List Char) : Nat :=
  ds.foldl (fun n c => n * 10 + (c.toNat - 48)) 0

/-- Parse a JSON number of the integer fragment: optional minus, digits
with no redundant leading zero, and no fraction or exponent following. -/
def parseNum (s : List Char) : Option (Json × List Char) :=
  let signed : Bool × List Char :=
    match s with
    | '-' :: rest => (true, rest)
    | _ => (false, s)
  match takeDigits signed.2 with
  | ([], _) => none
  | (ds, rest) =>
    if ds.length > 1 && ds.head? = some '0' then none
    else
      match rest with
      | '.' :: _ => none
      | 'e' :: _ => none
      | 'E' :: _ => none
      | _ =>
        let n : Int := Int.ofNat (digitsToNat ds)
        some (.num (if signed.1 then -n else n), rest)

mutual

/-- Parse one JSON value, fuelled by the input length. -/
def parseVal : Nat → List Char → Option (Json × List Char)
  | 0, _ => none
  | fuel + 1, s =>
    match skipWs s with
    | [] => none
    | c :: rest =>
      if c = '\x7b' then
        match skipWs rest with
        | '\x7d' :: r2 => some (.obj [], r2)
        | s2 => (parseMembers fuel s2).map (fun pr => (Json.obj pr.1, pr.2))
      else if c = '[' then
        match skipWs rest with
        | ']' :: r2 => some (.arr [], r2)
        | s2 => (parseItems fuel s2).map (fun pr => (Json.arr pr.1, pr.2))
      else if c = '"' then
        (parseStrBody rest.length rest).map (fun pr => (Json.str (String.mk pr.1), pr.2))
      else if c = 't' then (dropStart "rue".data rest).map (fun r => (Json.bool true, r))
      else if c = 'f' then (dropStart "alse".data rest).map (fun r => (Json.bool false, r))
      else if c = 'n' then (dropStart "ull".data rest).map (fun r => (Json.null, r))
      else parseNum (c :: rest)

/-- Parse the members of a nonempty JSON array, up to the closing bracket. -/
def parseItems : Nat → List Char → Option (List Json × List Char)
  | 0, _ => none
  | fuel + 1, s =>
    match parseVal fuel s with
    | none => none
    | some (v, r1) =>
      match skipWs r1 with
      | ',' :: r2 => (parseItems fuel r2).map (fun pr => (v :: pr.1, pr.2))
      | ']' :: r2 => some ([v], r2)
      | _ => none

/-- Parse the fields of a nonempty JSON object, up to the closing brace. -/
def parseMembers : Nat → List Char → Option (List (String × Json) × List Char)
  | 0, _ => none
  | fuel + 1, s =>
    match skipWs s with
    | '"' :: r0 =>
      match parseStrBody r0.length r0 with
      | none => none
      | some (key, r1) =>
        match skipWs r1 with
        | ':' :: r2 =>
          match parseVal fuel r2 with
          | none => none
          | some (v, r3) =>
            match skipWs r3 with
            | ',' :: r4 => (parseMembers fuel r4).map (fun pr => ((String.mk key, v) :: pr.1, pr.2))
            | '\x7d' :: r4 => some ([(String.mk key, v)], r4)
            | _ => none
        | _ => none
    | _ => none

end

/-- `JSON.parse` on the modelled fragment: one value, possibly surrounded
by whitespace, consuming the whole input; `none` models a thrown
`SyntaxError`. -/
def parseJson (s : String) : Option Json :=
  match parseVal (s.data.length + 1) s.data with
  | some (v, rest) => if skipWs rest = [] then some v else none
  | none => none

/-- Last-binding field lookup: `JSON.parse` keeps the last occurrence of a
duplicated key. -/
def lookupLast : List (String × Json) → String → Option Json
  | [], _ => none
  | (k, v) :: rest, key =>
    (lookupLast rest key).or (if k = key then some v else none)

/-- JavaScript property access `value.key` on a parsed JSON value: a field
of an object, `undefined` (`none`) otherwise.  (Access on `null` would
throw, but every such access in the source is short-circuited away.) -/
def jsGet : Json → String → Option Json
  | .obj fields, key => lookupLast fields key
  | _, _ => none

/-- JavaScript truthiness of a parsed JSON value. -/
def jsTruthy : Json → Bool
  | .null => false
  | .bool b => b
  | .num n => !(n = 0)
  | .str s => !(s = "")
  | .arr _ => true
  | .obj _ => true

/-- Truthiness of a possibly-`undefined` value. -/
def optTruthy : Option Json → Bool
  | none => false
  | some v => jsTruthy v

/-- `Array.isArray` on a possibly-`undefined` value. -/
def isArrOpt : Option Json → Bool
  | some (.arr _) => true
  | _ => false

/-- The basic validation of `generateDetailedStorySuggestion`:
`suggestion && suggestion.summary && Array.isArray(suggestion.panels)`. -/
def storyValidate (suggestion : Json) : Bool :=
  jsTruthy suggestion && optTruthy (jsGet suggestion "summary")
    && isArrOpt (jsGet suggestion "panels")

/-- The try/catch block of `generateDetailedStorySuggestion`: parse the
response text as JSON, return it when the basic validation passes, and
throw the invalid-structure error on a parse failure or a failed
validation (both paths land in the same catch). -/
def storyExtract (responseText : String) : Except String Json :=
  match parseJson responseText with
  | none => .error "The AI returned an invalid story structure. Please try again."
  | some suggestion =>
    if storyValidate suggestion then .ok suggestion
    else .error "The AI returned an invalid story structure. Please try again."

/-- The try/catch block of `analyzeAndSuggestCorrections`: parse the
response text as JSON and return the parsed value as-is (the source only
casts, performing no shape validation); only a parse failure throws. -/
def analyzeExtract (responseText : String) : Except String Json :=
  match parseJson responseText with
  | some result => .ok result
  | none => .error "The AI returned an invalid analysis structure."

lemma dataAppend (a b : String) : (a ++ b).data = a.data ++ b.data := by
  cases a; cases b; rfl

lemma mkData (s : String) : String.mk s.data = s := by
  cases s; rfl

lemma orNone (o : Option α) : o.or none = o := by
  cases o <;> rfl

lemma orSomeOr (x : Option α) (a : α) (y : Option α) :
    (x.or (some a)).or y = x.or (some a) := by
  cases x <;> rfl

lemma dropStart_self (p s : List Char) : dropStart p (p ++ s) = some s := by
  induction p with
  | nil => rfl
  | cons c cs ih => simp [dropStart, ih]

lemma dropStart_shape {p s r : List Char} (h : dropStart p s = some r) :
    s = p ++ r := by
  induction p generalizing s with
  | nil => simpa [dropStart] using h
  | cons c cs ih =>
    cases s with
    | nil => simp [dropStart] at h
    | cons b bs =>
      by_cases hcb : c = b
      · subst hcb
        simp only [dropStart, if_pos rfl] at h
        simp [ih h]
      · simp [dropStart, hcb] at h

lemma lazyToSemi_clean {r : List Char} (t : List Char)
    (h : ∀ c ∈ r, isDot c = true ∧ c ≠ ';') :
    lazyToSemi (r ++ ';' :: t) = some r := by
  induction r with
  | nil => simp [lazyToSemi]
  | cons c cs ih =>
    have hc := h c (by simp)
    have hr := ih (fun x hx => h x (by simp [hx]))
    simp [lazyToSemi, hc.1, hc.2, hr]

lemma findMime_of_matchFrom {s : List Char} {cap : List Char}
    (hne : s ≠ []) (h : matchFrom s = some cap) : findMime s = some cap := by
  cases s with
  | nil => exact absurd rfl hne
  | cons c rest => simp [findMime, h]

lemma matchFrom_shape {s cap : List Char} (h : matchFrom s = some cap) :
    ∃ x, cap = imageTypePat ++ x := by
  unfold matchFrom at h
  cases hd : dropStart dataImagePat s with
  | none => simp [hd] at h
  | some rest =>
    rw [hd] at h
    cases hl : lazyToSemi rest with
    | none => simp [hl] at h
    | some cs =>
      simp only [hl, Option.map_some] at h
      exact ⟨cs, by simpa using h.symm⟩

lemma findMime_starts {s cap : List Char} (h : findMime s = some cap) :
    startsWithImage cap = true := by
  induction s with
  | nil => simp [findMime] at h
  | cons c rest ih =>
    rw [findMime] at h
    cases hm : matchFrom (c :: rest) with
    | some cp =>
      obtain ⟨x, hx⟩ := matchFrom_shape hm
      simp only [hm] at h
      have hcap : cp = cap := by simpa using h
      rw [← hcap, hx]
      simp [startsWithImage, dropStart_self]
    | none =>
      simp only [hm] at h
      exact ih h

lemma splitOnChar_not_mem {c : Char} {s : List Char} (h : c ∉ s) :
    splitOnChar c s = [s] := by
  induction s with
  | nil => rfl
  | cons a rest ih =>
    have hac : ¬a = c := fun hac => h (by simp [hac])
    rw [splitOnChar, if_neg hac, ih (fun hm => h (by simp [hm]))]

lemma splitOnChar_append {c : Char} {x : List Char} (y : List Char) (h : c ∉ x) :
    splitOnChar c (x ++ c :: y) = x :: splitOnChar c y := by
  induction x with
  | nil => simp [splitOnChar]
  | cons a rest ih =>
    have hac : ¬a = c := fun hac => h (by simp [hac])
    have hr := ih (fun hm => h (by simp [hm]))
    rw [List.cons_append, splitOnChar, if_neg hac, hr]

lemma segAt_self_append (p y : List Char) : segAt p (p ++ y) = true := by
  induction p with
  | nil => rfl
  | cons c cs ih => simp [segAt, ih]

lemma occursIn_of_seg {p s : List Char} (h : segAt p s = true) :
    occursIn p s = true := by
  cases s with
  | nil =>
    cases p with
    | nil => rfl
    | cons a ps => simp [segAt] at h
  | cons b bs => simp [occursIn, h]

lemma occursIn_append (p x y : List Char) : occursIn p (x ++ p ++ y) = true := by
  induction x with
  | nil =>
    show occursIn p (p ++ y) = true
    exact occursIn_of_seg (segAt_self_append p y)
  | cons a rest ih =>
    show (segAt p (a :: (rest ++ p ++ y)) || occursIn p (rest ++ p ++ y)) = true
    rw [ih, Bool.or_true]

lemma firstInl_none_lastInlUri {ps : List RPart} (h : firstInl ps = none) :
    lastInlUri ps = none := by
  induction ps with
  | nil => rfl
  | cons p rest ih =>
    rw [firstInl] at h
    cases hp : p.inlineData with
    | some d => rw [hp] at h; exact absurd h (by simp)
    | none =>
      rw [hp] at h
      rw [lastInlUri, hp, ih h]
      rfl

lemma mangaScan_eq (ps : List RPart) (acc : GeneratedContent) :
    mangaScan ps acc =
      { image := (lastInlUri ps).or acc.image, text := (lastTxt ps).or acc.text } := by
  induction ps generalizing acc with
  | nil => simp [mangaScan, lastInlUri, lastTxt]
  | cons p rest ih =>
    rw [mangaScan, lastInlUri, lastTxt]
    cases hp : p.inlineData with
    | some d => simp [partTxt, hp, orSomeOr, orNone, ih]
    | none =>
      cases ht : p.text with
      | some t =>
        by_cases he : t = ""
        · simp [partTxt, hp, ht, he, orNone, ih]
        · simp [partTxt, hp, ht, he, orSomeOr, orNone, ih]
      | none => simp [partTxt, hp, ht, orNone, ih]

/-- C1 (counterexample): `analyzeAndSuggestCorrections` accepts a backend
payload with `has_discrepancies` false and a nonempty `correction_prompt`
and returns it unchanged, so the claimed invariant fails on an accepted
response text. -/
theorem c1_counterexample :
    analyzeExtract "\x7b\"analysis\":\"ok\",\"has_discrepancies\":false,\"correction_prompt\":\"Fix the pose\"\x7d"
      = .ok (.obj [("analysis", .str "ok"), ("has_discrepancies", .bool false),
          ("correction_prompt", .str "Fix the pose")]) ∧
    jsGet (.obj [("analysis", .str "ok"), ("has_discrepancies", .bool false),
        ("correction_prompt", .str "Fix the pose")]) "has_discrepancies"
      = some (.bool false) ∧
    jsGet (.obj [("analysis", .str "ok"), ("has_discrepancies", .bool false),
        ("correction_prompt", .str "Fix the pose")]) "correction_prompt"
      = some (.str "Fix the pose") ∧
    some (Json.str "Fix the pose") ≠ some (Json.str "") := by
  refine ⟨rfl, rfl, rfl, ?_⟩
  intro h
  injection h with h1
  injection h1 with h2
  exact absurd h2 (by decide)

/-- C1 (amended): `analyzeAndSuggestCorrections` returns the JSON-parsed
response text as-is, with no validation of the flag/prompt invariant: every
parseable payload is accepted unchanged. -/
theorem c1_passthrough (responseText : String) (v : Json)
    (h : parseJson responseText = some v) :
    analyzeExtract responseText = .ok v := by
  unfold analyzeExtract
  rw [h]

/-- Witness for C1: the invariant-violating payload itself is accepted and
passed through. -/
theorem c1_passthrough_witness :
    analyzeExtract "\x7b\"analysis\":\"ok\",\"has_discrepancies\":false,\"correction_prompt\":\"Fix the pose\"\x7d"
      = .ok (.obj [("analysis", .str "ok"), ("has_discrepancies", .bool false),
          ("correction_prompt", .str "Fix the pose")]) :=
  c1_passthrough _ _ rfl

/-- C2 (counterexample): with a previous page, one character and a canvas
image all supplied, `generateLayoutProposal` sends the canvas image first,
then the previous-page image, then the character sheet — not the claimed
previous-page / characters / canvas order. -/
theorem c2_counterexample :
    generateLayoutProposalParts "P"
        [{ name := "Hero", sheetImage := "data:image/png;base64,CHAR" }]
        (some { proposalImage := "data:image/png;base64,PREV", sceneDescription := "s" })
        (some "data:image/png;base64,CANVAS")
      = [ReqPart.text "P",
         ReqPart.inlineData (some "CANVAS") "image/png",
         ReqPart.inlineData (some "PREV") "image/png",
         ReqPart.inlineData (some "CHAR") "image/png"] ∧
    [ReqPart.text "P",
     ReqPart.inlineData (some "CANVAS") "image/png",
     ReqPart.inlineData (some "PREV") "image/png",
     ReqPart.inlineData (some "CHAR") "image/png"] ≠
    [ReqPart.text "P",
     ReqPart.inlineData (some "PREV") "image/png",
     ReqPart.inlineData (some "CHAR") "image/png",
     ReqPart.inlineData (some "CANVAS") "image/png"] :=
  ⟨rfl, by decide⟩

/-- C2 (amended): when a previous page, characters and a current canvas
image are all supplied to `generateLayoutProposal`, the attachments after
the text instruction are ordered: current-canvas image first, then the
previous-page image, then the per-character sheet images in roster order. -/
theorem c2_attachment_order (prompt : String) (characters : List Character)
    (pp : PrevLayout) (canvas : String)
    (hcv : canvas ≠ "") (hpp : pp.proposalImage ≠ "") :
    generateLayoutProposalParts prompt characters (some pp) (some canvas) =
      ReqPart.text prompt :: imageAttachment canvas ::
        imageAttachment pp.proposalImage ::
        characters.map (fun char => imageAttachment char.sheetImage) := by
  unfold generateLayoutProposalParts
  cases characters with
  | nil => simp [hcv, hpp]
  | cons c cs => simp [hcv, hpp]

/-- Witness for C2 (amended) at a concrete roster of one character. -/
theorem c2_attachment_order_witness :
    generateLayoutProposalParts "P"
        [{ name := "Hero", sheetImage := "data:image/png;base64,CHAR" }]
        (some { proposalImage := "data:image/png;base64,PREV", sceneDescription := "s" })
        (some "data:image/png;base64,CANVAS")
      = ReqPart.text "P" :: imageAttachment "data:image/png;base64,CANVAS" ::
          imageAttachment "data:image/png;base64,PREV" ::
          [({ name := "Hero", sheetImage := "data:image/png;base64,CHAR" } : Character)].map
            (fun char => imageAttachment char.sheetImage) :=
  c2_attachment_order _ _ _ _ (by decide) (by decide)

/-- C5: evaluation of the previous-pages loop of
`generateDetailedStorySuggestion` at a list whose first page lacks its
image: the only kept page is labelled "Previous Page 2" and "[Image 2 is
attached]" although its image is the first and only attachment pushed. -/
theorem c5_label_desync :
    prevPagesBuild 0
        [{ sceneDescription := "The hero arrives.", generatedImage := none },
         { sceneDescription := "The duel begins.",
           generatedImage := some "data:image/png;base64,PG2" }]
      = ("\n\n**[Previous Page 2]**\n*Script:* The duel begins.\n*Image:* [Image 2 is attached]",
         [ReqPart.inlineData (some "PG2") "image/png"]) := by
  rfl

/-- C6 (amended): `generateDetailedStorySuggestion` fails with the
invalid-structure failure exactly when the payload does not parse as JSON
or fails the basic check (truthy `summary` and `Array.isArray(panels)`) —
so the literal payload with `summary` but no `panels` is rejected and
nothing failing the basic check is ever returned — but payloads violating
the declared schema while passing that basic check, such as a numeric
`summary`, are returned as-is; `analyzeAndSuggestCorrections` (see its own
counterexample) performs no shape validation at all. -/
theorem c6_structured_rejection :
    (∀ (responseText : String) (v : Json),
      storyExtract responseText = .ok v →
      parseJson responseText = some v ∧ storyValidate v = true) ∧
    (∀ (responseText : String) (v : Json),
      parseJson responseText = some v → storyValidate v = true →
      storyExtract responseText = .ok v) ∧
    storyExtract "\x7b\"summary\":\"Test\"\x7d"
      = .error "The AI returned an invalid story structure. Please try again." ∧
    storyExtract "\x7b\"summary\":123,\"panels\":[]\x7d"
      = .ok (.obj [("summary", .num 123), ("panels", .arr [])]) := by
  refine ⟨?_, ?_, rfl, rfl⟩
  · intro t v h
    unfold storyExtract at h
    cases hp : parseJson t with
    | none => simp [hp] at h
    | some s =>
      simp only [hp] at h
      by_cases hv : storyValidate s = true
      · rw [if_pos hv] at h
        obtain rfl : s = v := by simpa using h
        exact ⟨rfl, hv⟩
      · rw [if_neg hv] at h
        simp at h
  · intro t v hp hv
    unfold storyExtract
    simp only [hp]
    rw [if_pos hv]

/-- Witness for C6 (amended): a payload passing the basic check is
returned, and a returned payload passes the basic check. -/
theorem c6_structured_rejection_witness :
    storyExtract "\x7b\"summary\":\"Test\",\"panels\":[]\x7d"
      = .ok (.obj [("summary", .str "Test"), ("panels", .arr [])]) ∧
    storyValidate (.obj [("summary", .str "Test"), ("panels", .arr [])]) = true :=
  ⟨c6_structured_rejection.2.1 "\x7b\"summary\":\"Test\",\"panels\":[]\x7d" _ rfl rfl,
   (c6_structured_rejection.1 "\x7b\"summary\":\"Test\",\"panels\":[]\x7d" _ rfl).2⟩

/-- C6 (counterexample): `analyzeAndSuggestCorrections` accepts the literal
payload with `summary` only — the very payload the claim says must fail
with the invalid-structure failure — and returns the partial object. -/
theorem c6_counterexample :
    analyzeExtract "\x7b\"summary\":\"Test\"\x7d" = .ok (.obj [("summary", .str "Test")]) :=
  rfl

/-- C9: in `generateMangaPage`, with a previous page carrying a generated
image the parts are exactly [text, previous-page image, character sheets in
roster order, panel-layout image]; without one, only the previous-page
element is missing and the rest keeps its relative order. -/
theorem c9_attachment_order :
    (∀ (prompt : String) (characters : List Character)
       (panelLayoutImageBase64 : String) (previousPage : Option Page) (img : String),
      prevGeneratedImage previousPage = some img →
      generateMangaPageParts prompt characters panelLayoutImageBase64 previousPage =
        ReqPart.text prompt :: imageAttachment img ::
          (characters.map (fun char => imageAttachment char.sheetImage)
            ++ [imageAttachment panelLayoutImageBase64])) ∧
    (∀ (prompt : String) (characters : List Character)
       (panelLayoutImageBase64 : String) (previousPage : Option Page),
      prevGeneratedImage previousPage = none →
      generateMangaPageParts prompt characters panelLayoutImageBase64 previousPage =
        ReqPart.text prompt ::
          (characters.map (fun char => imageAttachment char.sheetImage)
            ++ [imageAttachment panelLayoutImageBase64])) := by
  constructor
  · intro prompt characters panel previousPage img h
    simp [generateMangaPageParts, h]
  · intro prompt characters panel previousPage h
    simp [generateMangaPageParts, h]

/-- Witness for C9 at a concrete one-character roster with a previous page. -/
theorem c9_attachment_order_witness :
    generateMangaPageParts "P"
        [{ name := "Hero", sheetImage := "data:image/png;base64,CHAR" }]
        "data:image/png;base64,PANEL"
        (some { sceneDescription := "s",
                generatedImage := some "data:image/png;base64,PREV" }) =
      ReqPart.text "P" :: imageAttachment "data:image/png;base64,PREV" ::
        ([({ name := "Hero", sheetImage := "data:image/png;base64,CHAR" } : Character)].map
            (fun char => imageAttachment char.sheetImage)
          ++ [imageAttachment "data:image/png;base64,PANEL"]) :=
  c9_attachment_order.1 _ _ _ _ _ rfl

/-- C10 (counterexample): the key "toString" is not one of the four
presets, yet the profile used is not the A4 profile: the bracket lookup
finds the truthy `Object.prototype.toString`, the `|| A4` fallback does
not fire, and the width/height/ratio fields read from the selection are
`undefined`. -/
theorem c10_counterexample :
    layoutAspectProfile "toString" = none ∧
    (none : Option RatioProfile) ≠ some { w := 595, h := 842, value := "210:297" } ∧
    ("toString" : String) ≠ "A4" ∧ ("toString" : String) ≠ "Portrait (3:4)" ∧
    ("toString" : String) ≠ "Square (1:1)" ∧ ("toString" : String) ≠ "Widescreen (16:9)" :=
  ⟨rfl, by decide, by decide, by decide, by decide, by decide⟩

/-- C10 (amended): an unrecognized aspect-ratio key that does not name an
`Object.prototype` member falls back to the A4 profile (595 x 842,
"210:297"); each of the four recognized keys maps to its fixed profile;
a key naming an `Object.prototype` member selects the truthy inherited
member, so the fallback does not fire and the fields the prompt reads are
`undefined`. -/
theorem c10_aspect_profiles :
    (∀ key : String, key ≠ "A4" → key ≠ "Portrait (3:4)" → key ≠ "Square (1:1)" →
        key ≠ "Widescreen (16:9)" → key ∉ objectProtoNames →
        layoutAspectProfile key = some { w := 595, h := 842, value := "210:297" }) ∧
    layoutAspectProfile "A4" = some { w := 595, h := 842, value := "210:297" } ∧
    layoutAspectProfile "Portrait (3:4)" = some { w := 600, h := 800, value := "3:4" } ∧
    layoutAspectProfile "Square (1:1)" = some { w := 800, h := 800, value := "1:1" } ∧
    layoutAspectProfile "Widescreen (16:9)" = some { w := 1280, h := 720, value := "16:9" } ∧
    (∀ key ∈ objectProtoNames, layoutAspectProfile key = none) := by
  refine ⟨?_, rfl, rfl, rfl, rfl, by decide⟩
  intro key h1 h2 h3 h4 h5
  simp [layoutAspectProfile, layoutAspectConfig, aspectRatioConfig, ratioTruthy,
    h1, h2, h3, h4, h5]

/-- Witness for C10 (amended) at the unrecognized, non-prototype key "B5". -/
theorem c10_aspect_profiles_witness :
    layoutAspectProfile "B5" = some { w := 595, h := 842, value := "210:297" } :=
  c10_aspect_profiles.1 "B5" (by decide) (by decide) (by decide) (by decide) (by decide)

/-- C3 (counterexample): a first candidate carrying two inline parts and
two text parts makes `generateMangaPage` return the image of the second
(last) inline part and the second (last) text part, not the first ones as
claimed. -/
theorem c3_counterexample :
    mangaPageExtract
        { candidates := [{ content := { parts := [
            { inlineData := some { data := "AAA", mimeType := "image/png" } },
            { inlineData := some { data := "BBB", mimeType := "image/jpeg" } },
            { text := some "t1" },
            { text := some "t2" }] } }] }
      = .ok { image := some "data:image/jpeg;base64,BBB", text := some "t2" } ∧
    ({ image := some "data:image/jpeg;base64,BBB", text := some "t2" } : GeneratedContent)
      ≠ { image := some "data:image/png;base64,AAA", text := some "t1" } :=
  ⟨rfl, by decide⟩

/-- C3 (amended): the find-based multi-modal operations (here
`generateLayoutProposal`) build the result from the first inline part of
the first candidate, while `generateMangaPage` overwrites as it scans and
so keeps the last inline part and the last text part. -/
theorem c3_part_selection :
    (∀ (response : GenResponse) (c : RCandidate) (rest : List RCandidate) (d : InlineData),
      response.candidates = c :: rest → firstInl c.content.parts = some d →
      layoutExtract response = .ok (encodeImage d.mimeType d.data)) ∧
    (∀ (response : GenResponse) (c : RCandidate) (rest : List RCandidate) (u : String),
      response.candidates = c :: rest → lastInlUri c.content.parts = some u →
      mangaPageExtract response = .ok { image := some u, text := lastTxt c.content.parts }) := by
  constructor
  · intro response c rest d hc hf
    simp only [layoutExtract, hc, hf]
  · intro response c rest u hc hu
    simp only [mangaPageExtract, hc, mangaScan_eq, hu, orNone]

/-- Witness for C3 (amended): the two-inline-parts candidate, via the
last-part characterization. -/
theorem c3_part_selection_witness :
    mangaPageExtract
        { candidates := [{ content := { parts := [
            { inlineData := some { data := "AAA", mimeType := "image/png" } },
            { inlineData := some { data := "BBB", mimeType := "image/jpeg" } }] } }] }
      = .ok { image := some "data:image/jpeg;base64,BBB",
              text := lastTxt [
                ({ inlineData := some { data := "AAA", mimeType := "image/png" } } : RPart),
                { inlineData := some { data := "BBB", mimeType := "image/jpeg" } }] } :=
  c3_part_selection.2
    { candidates := [{ content := { parts := [
        { inlineData := some { data := "AAA", mimeType := "image/png" } },
        { inlineData := some { data := "BBB", mimeType := "image/jpeg" } }] } }] }
    { content := { parts := [
        { inlineData := some { data := "AAA", mimeType := "image/png" } },
        { inlineData := some { data := "BBB", mimeType := "image/jpeg" } }] } }
    [] "data:image/jpeg;base64,BBB" rfl rfl

/-- C4 (counterexample): on a candidate whose only part is text,
`editCharacterSheet` and `colorizeMangaPage` fail with fixed messages that
do not contain that text, contradicting the claimed uniform embedding. -/
theorem c4_counterexample :
    editCharSheetExtract
        { candidates := [{ content := { parts := [{ text := some "REFUSED: unsafe content" }] } }] }
      = .error "The AI did not return an updated image for the character sheet." ∧
    occursIn "REFUSED: unsafe content".data
      "The AI did not return an updated image for the character sheet.".data = false ∧
    colorizeExtract
        { candidates := [{ content := { parts := [{ text := some "REFUSED: unsafe content" }] } }] }
      = .error "The AI did not return a colored image." ∧
    occursIn "REFUSED: unsafe content".data
      "The AI did not return a colored image.".data = false :=
  ⟨rfl, by decide, rfl, by decide⟩

/-- C4 (amended): with candidates present, no inline part and a first
truthy text part, `generateLayoutProposal`, `generateCharacterSheet`,
`generateCharacterFromReference` and `editMangaPage` fail with a
missing-image message embedding that text verbatim; `generateMangaPage`
embeds the last truthy text; `editCharacterSheet` and `colorizeMangaPage`
fail with fixed messages carrying no text. -/
theorem c4_missing_image_messages (response : GenResponse) (c : RCandidate)
    (rest : List RCandidate) (t : String)
    (hc : response.candidates = c :: rest)
    (hinl : firstInl c.content.parts = none)
    (htxt : firstTxt c.content.parts = some t) :
    (layoutExtract response
        = .error ("The AI did not return an image. Response: \"" ++ t ++ "\"") ∧
      occursIn t.data ("The AI did not return an image. Response: \"" ++ t ++ "\"").data = true) ∧
    charSheetExtract response
      = .error ("The AI did not return an image. Response: \"" ++ t ++ "\"") ∧
    charFromRefExtract response
      = .error ("The AI did not return an image. Response: \"" ++ t ++ "\"") ∧
    editMangaExtract response
      = .error ("The AI did not return an image. Response: \"" ++ t ++ "\"") ∧
    editCharSheetExtract response
      = .error "The AI did not return an updated image for the character sheet." ∧
    colorizeExtract response
      = .error "The AI did not return a colored image." ∧
    (∀ t2 : String, lastTxt c.content.parts = some t2 →
      mangaPageExtract response
          = .error ("The AI did not return an image. It might have refused the request. " ++ t2) ∧
      occursIn t2.data
        ("The AI did not return an image. It might have refused the request. " ++ t2).data = true) := by
  have hocc : ∀ a b t0 : String, occursIn t0.data ((a ++ t0 ++ b)).data = true := by
    intro a b t0
    rw [dataAppend, dataAppend]
    exact occursIn_append t0.data a.data b.data
  have hocc2 : ∀ a t0 : String, occursIn t0.data ((a ++ t0)).data = true := by
    intro a t0
    rw [dataAppend]
    have h := occursIn_append t0.data a.data []
    rwa [List.append_nil] at h
  refine ⟨⟨?_, hocc _ _ t⟩, ?_, ?_, ?_, ?_, ?_, ?_⟩
  · simp only [layoutExtract, hc, hinl, htxt]
  · simp only [charSheetExtract, hc, hinl, htxt]
  · simp only [charFromRefExtract, hc, hinl, htxt]
  · simp only [editMangaExtract, hc, hinl, htxt]
  · simp only [editCharSheetExtract, hc, hinl]
  · simp only [colorizeExtract, hc, hinl]
  · intro t2 ht2
    have hlast := firstInl_none_lastInlUri hinl
    refine ⟨?_, hocc2 _ t2⟩
    simp only [mangaPageExtract, hc, mangaScan_eq, hlast, ht2, orNone]
    simp

/-- Witness for C4 (amended) at a one-text-part candidate. -/
theorem c4_missing_image_messages_witness :
    layoutExtract { candidates := [{ content := { parts := [{ text := some "NOPE" }] } }] }
        = .error ("The AI did not return an image. Response: \"" ++ "NOPE" ++ "\"") ∧
    occursIn "NOPE".data
      ("The AI did not return an image. Response: \"" ++ "NOPE" ++ "\"").data = true :=
  (c4_missing_image_messages
    { candidates := [{ content := { parts := [{ text := some "NOPE" }] } }] }
    { content := { parts := [{ text := some "NOPE" }] } }
    [] "NOPE" rfl rfl rfl).1

/-- C7 (counterexample): for the media type "text/plain" the decode of the
encode yields media type "image/png", not "text/plain": the round-trip
fails for media types outside image/*. -/
theorem c7_counterexample :
    mimeOf (encodeImage "text/plain" "QUJD") = "image/png" ∧
    splitComma1 (encodeImage "text/plain" "QUJD") = some "QUJD" ∧
    (("image/png" : String), some ("QUJD" : String))
      ≠ (("text/plain" : String), some ("QUJD" : String)) :=
  ⟨rfl, rfl, by decide⟩

/-- C7 (amended): the decode/encode round-trip holds for media types that
start with "image/", contain no semicolon, comma or line terminator, and
payloads containing no comma (true of genuine base64 payloads). -/
theorem c7_roundtrip (m p : String)
    (him : startsWithImage m.data = true)
    (hsemi : ';' ∉ m.data)
    (hdot : ∀ c ∈ m.data, isDot c = true)
    (hmc : ',' ∉ m.data)
    (hpc : ',' ∉ p.data) :
    mimeOf (encodeImage m p) = m ∧ splitComma1 (encodeImage m p) = some p := by
  obtain ⟨r, hr⟩ : ∃ r, m.data = imageTypePat ++ r := by
    unfold startsWithImage at him
    cases hd : dropStart imageTypePat m.data with
    | none => rw [hd] at him; simp at him
    | some r => exact ⟨r, dropStart_shape hd⟩
  have hcat : "data:".data ++ imageTypePat = dataImagePat := rfl
  have hsplitsemi : ";base64,".data = ';' :: "base64,".data := rfl
  have hdata : (encodeImage m p).data
      = dataImagePat ++ (r ++ (';' :: ("base64,".data ++ p.data))) := by
    show (("data:" ++ m ++ ";base64,") ++ p).data = _
    rw [dataAppend, dataAppend, dataAppend, hr, hsplitsemi, ← hcat]
    simp [List.append_assoc]
  have hcond : ∀ c ∈ r, isDot c = true ∧ c ≠ ';' := by
    intro c hcr
    have hcm : c ∈ m.data := by
      rw [hr]; exact List.mem_append_right _ hcr
    exact ⟨hdot c hcm, fun he => hsemi (he ▸ hcm)⟩
  have hmatch : matchFrom ((encodeImage m p).data) = some m.data := by
    rw [hdata]
    unfold matchFrom
    simp only [dropStart_self]
    rw [lazyToSemi_clean ("base64,".data ++ p.data) hcond, hr]
    rfl
  have hne : (encodeImage m p).data ≠ [] := by
    rw [hdata, show dataImagePat = 'd' :: "ata:image/".data from rfl]
    simp
  have h1 : mimeOf (encodeImage m p) = m := by
    simp only [mimeOf, findMime_of_matchFrom hne hmatch]
  have hdata2 : (encodeImage m p).data
      = ("data:".data ++ m.data ++ ";base64".data) ++ ',' :: p.data := by
    show (("data:" ++ m ++ ";base64,") ++ p).data = _
    rw [dataAppend, dataAppend, dataAppend,
      show ";base64,".data = ";base64".data ++ [','] from rfl]
    simp [List.append_assoc]
  have hpre : ',' ∉ ("data:".data ++ m.data ++ ";base64".data) := by
    intro hin
    rcases List.mem_append.mp hin with hin1 | hin2
    · rcases List.mem_append.mp hin1 with hin3 | hin4
      · exact absurd hin3 (by decide)
      · exact hmc hin4
    · exact absurd hin2 (by decide)
  have h2 : splitComma1 (encodeImage m p) = some p := by
    unfold splitComma1
    rw [hdata2, splitOnChar_append _ hpre, splitOnChar_not_mem hpc]
    simp [mkData]
  exact ⟨h1, h2⟩

/-- Witness for C7 (amended) at the pair ("image/webp", "QUJD"). -/
theorem c7_roundtrip_witness :
    mimeOf (encodeImage "image/webp" "QUJD") = "image/webp" ∧
    splitComma1 (encodeImage "image/webp" "QUJD") = some "QUJD" :=
  c7_roundtrip "image/webp" "QUJD" (by decide) (by decide) (by decide)
    (by decide) (by decide)

/-- C8 (counterexample): the string "data:text/plain;base64,AA" carries the
data-URI prefix with media-type token "text/plain", yet decoding yields the
default "image/png": the extraction does not fire for every prefixed
string, only for image/* tokens. -/
theorem c8_counterexample :
    mimeOf "data:text/plain;base64,AA" = "image/png" ∧
    ("image/png" : String) ≠ "text/plain" :=
  ⟨rfl, by decide⟩

/-- C8 (amended): mime decoding is a total function: on every string it
either returns the capture of the first occurrence of the pattern
`data:image/...;` (a token starting with "image/", cut at the first
following semicolon) or, when no such occurrence exists, the default
"image/png". -/
theorem c8_mime_total (s : String) :
    (findMime s.data = none → mimeOf s = "image/png") ∧
    (∀ t, findMime s.data = some t →
      mimeOf s = String.mk t ∧ startsWithImage t = true) := by
  constructor
  · intro h
    simp only [mimeOf, h]
  · intro t h
    refine ⟨?_, findMime_starts h⟩
    simp only [mimeOf, h]

/-- Witness for C8 (amended): the default branch at "hello" and the
extraction branch at "data:image/gif;x". -/
theorem c8_mime_total_witness :
    mimeOf "hello" = "image/png" ∧
    (mimeOf "data:image/gif;x" = String.mk "image/gif".data ∧
      startsWithImage "image/gif".data = true) :=
  ⟨(c8_mime_total "hello").1 rfl,
   (c8_mime_total "data:image/gif;x").2 "image/gif".data rfl⟩
